import Mathlib

/-!
Verification of `src/components/sample-component/src/main.py`.

The Python module defines two functions:

* `hello_world()` reads the `ENVIRONMENT` variable through
  `os.environ.get` with default `"unknown"` and returns the f-string
  interpolation `"Hello World from ... environment!"`.
* `lambda_handler(event, context)` calls `hello_world`, prints the message,
  and returns a dict with `statusCode` set to `200` and `body` set to
  `json.dumps` of a dict holding `message` and `context.function_name`.

Python strings are embedded as lists of Unicode scalar values (`List Char`);
the process environment as an association list; attribute access on the
context object as an `Option` field, with a missing attribute surfacing as
`AttributeError` through `Except`.  `json.dumps` is embedded with the CPython
default options (`ensure_ascii=True`, separators `", "` / `": "`, insertion
order preserved), and `json.loads` is embedded for the JSON fragment this
program produces: objects whose keys and values are strings.
-/

namespace SampleComponent

/-- Python strings, as lists of Unicode scalar values. -/
abbrev PyStr := List Char

/-- The process environment mapping, as supplied by the hosting process. -/
abbrev EnvMap := List (PyStr × PyStr)

/-- Lookup of a key in the environment mapping. -/
def env_lookup : EnvMap → PyStr → Option PyStr
  | [], _ => none
  | (k, v) :: rest, key => if k = key then some v else env_lookup rest key

/-- Embedding of `os.environ.get(key, default)`: read the mapping, falling
back to the default when the key is absent.  The read does not change the
mapping. -/
def os_environ_get (env : EnvMap) (key dflt : PyStr) : PyStr :=
  (env_lookup env key).getD dflt

/-- The configuration key read by `hello_world`. -/
def ENVIRONMENT_KEY : PyStr := "ENVIRONMENT".data

/-- Embedding of `hello_world` (main.py lines 4-7): the read of
`ENVIRONMENT` with default `"unknown"`, followed by the f-string
interpolation. -/
def hello_world (env : EnvMap) : PyStr :=
  let environment := os_environ_get env ENVIRONMENT_KEY ("unknown".data)
  "Hello World from ".data ++ environment ++ " environment!".data

/-- The invocation context object; `function_name` is `none` when the
attribute is absent from the object. -/
structure Context where
  function_name : Option PyStr

/-- Python exceptions this program can raise. -/
inductive PyError where
  | attributeError
  deriving DecidableEq

/-- The handler response dictionary: `statusCode` and `body`. -/
structure Response where
  statusCode : Int
  body : PyStr
  deriving DecidableEq

/-- Hex digit used by CPython when escaping with `\uXXXX` (lowercase). -/
def toHexDigit (n : Nat) : Char :=
  if n < 10 then Char.ofNat (48 + n) else Char.ofNat (87 + n)

/-- Four lowercase hex digits of `n < 0x10000`, most significant first. -/
def toHex4 (n : Nat) : List Char :=
  [toHexDigit (n / 4096 % 16), toHexDigit (n / 256 % 16),
   toHexDigit (n / 16 % 16), toHexDigit (n % 16)]

/-- CPython `json.encoder` escaping of one character with
`ensure_ascii=True`: the two-character escapes for backslash, quote,
backspace, formfeed, newline, carriage return and tab; printable ASCII
kept verbatim; everything else as `\uXXXX`, with a surrogate pair for
code points above `0xFFFF`. -/
def escape_ascii_char (c : Char) : List Char :=
  if c = '\\' then ['\\', '\\']
  else if c = '"' then ['\\', '"']
  else if c = '\x08' then ['\\', 'b']
  else if c = '\x0c' then ['\\', 'f']
  else if c = '\n' then ['\\', 'n']
  else if c = '\r' then ['\\', 'r']
  else if c = '\t' then ['\\', 't']
  else if 0x20 ≤ c.toNat ∧ c.toNat ≤ 0x7e then [c]
  else if c.toNat < 0x10000 then '\\' :: 'u' :: toHex4 c.toNat
  else
    ('\\' :: 'u' :: toHex4 (0xd800 + (c.toNat - 0x10000) / 0x400)) ++
    ('\\' :: 'u' :: toHex4 (0xdc00 + (c.toNat - 0x10000) % 0x400))

/-- CPython `json.encoder.py_encode_basestring_ascii`: a double quote,
each character escaped, a closing double quote. -/
def py_encode_basestring_ascii (s : PyStr) : PyStr :=
  '"' :: s.flatMap escape_ascii_char ++ ['"']

/-- One `key: value` member of a serialized object, with the CPython default
key separator `": "`. -/
def encode_member (k v : PyStr) : PyStr :=
  py_encode_basestring_ascii k ++ ':' :: ' ' :: py_encode_basestring_ascii v

/-- The members of a serialized object in insertion order, joined with
the CPython default item separator `", "`. -/
def json_dumps_members : List (PyStr × PyStr) → PyStr
  | [] => []
  | [(k, v)] => encode_member k v
  | (k, v) :: kvs => encode_member k v ++ ',' :: ' ' :: json_dumps_members kvs

/-- Embedding of `json.dumps` (default options) on a dict whose keys and
values are all strings, the only shape this program serializes. -/
def json_dumps_strobj (kvs : List (PyStr × PyStr)) : PyStr :=
  '\x7b' :: json_dumps_members kvs ++ ['\x7d']

/-- The `message` dictionary key. -/
def messageKey : PyStr := "message".data

/-- The `function_name` dictionary key. -/
def functionNameKey : PyStr := "function_name".data

/-- Embedding of `lambda_handler` (main.py lines 9-22).  The first
component is the message emitted by `print(message)`; the second is the
outcome: the response dictionary, or the `AttributeError` raised when the
dict literal evaluates `context.function_name` and the attribute is
absent.  The `event` argument is accepted at any type and never used. -/
def lambda_handler {α : Type} (env : EnvMap) (event : α) (context : Context) :
    PyStr × Except PyError Response :=
  let message := hello_world env
  (message,
    match context.function_name with
    | some fn =>
        Except.ok
          { statusCode := 200,
            body := json_dumps_strobj [(messageKey, message), (functionNameKey, fn)] }
    | none => Except.error PyError.attributeError)

/-! ### State-passing embedding

To settle the frame claim, the same functions threaded through the
environment mapping as explicit state: the only primitive touching the
mapping is `os.environ.get`, a read. -/

/-- Embedding of `os.environ.get` as a state transformer on the environment mapping:
it returns the looked-up value and the mapping it read. -/
def os_environ_get_st (env : EnvMap) (key dflt : PyStr) : PyStr × EnvMap :=
  ((env_lookup env key).getD dflt, env)

/-- Embedding of `hello_world` with the environment mapping threaded as state. -/
def hello_world_st (env : EnvMap) : PyStr × EnvMap :=
  let (environment, env1) := os_environ_get_st env ENVIRONMENT_KEY ("unknown".data)
  ("Hello World from ".data ++ environment ++ " environment!".data, env1)

/-- Embedding of `lambda_handler` with the environment mapping threaded as state. -/
def lambda_handler_st {α : Type} (env : EnvMap) (event : α) (context : Context) :
    (PyStr × Except PyError Response) × EnvMap :=
  let (message, env1) := hello_world_st env
  ((message,
    match context.function_name with
    | some fn =>
        Except.ok
          { statusCode := 200,
            body := json_dumps_strobj [(messageKey, message), (functionNameKey, fn)] }
    | none => Except.error PyError.attributeError), env1)

/-! ### Embedding of `json.loads` on the fragment this program emits

A decoder in the shape of `json/decoder.py`, restricted to the JSON values
this program ever serializes: objects whose keys and values are strings.
String literals are decoded in full generality (all escape sequences,
including `\uXXXX` and surrogate pairs; unescaped control characters
rejected, as in strict-mode `json.loads`).  A `\uXXXX` escape denoting a
lone surrogate is rejected, since a Lean `Char` holds only Unicode scalar
values. -/

/-- Value of one hex digit, upper or lower case. -/
def parse_hex_digit (c : Char) : Option Nat :=
  if '0' ≤ c ∧ c ≤ '9' then some (c.toNat - 48)
  else if 'a' ≤ c ∧ c ≤ 'f' then some (c.toNat - 87)
  else if 'A' ≤ c ∧ c ≤ 'F' then some (c.toNat - 55)
  else none

/-- Prepend a decoded character to a string-decoding result. -/
def cons_result (c : Char) : Option (PyStr × List Char) → Option (PyStr × List Char)
  | some (s, r) => some (c :: s, r)
  | none => none

/-- Combine four already-decoded hex digit values, most significant
first. -/
def hex4comb : Option Nat → Option Nat → Option Nat → Option Nat → Option Nat
  | some va, some vb, some vc, some vd => some (va * 4096 + vb * 256 + vc * 16 + vd)
  | _, _, _, _ => none

/-- Combined value of four hex digit characters, most significant first. -/
def hex4 (a b c d : Char) : Option Nat :=
  hex4comb (parse_hex_digit a) (parse_hex_digit b) (parse_hex_digit c) (parse_hex_digit d)

/-- Outcome of scanning one item of a JSON string literal body. -/
inductive StrStep where
  | done (rest : List Char)
  | chr (c : Char) (rest : List Char)
  | bad
  deriving DecidableEq

/-- Combine a decoded high surrogate `n` with the value of the following
`\uXXXX` escape, which must denote a low surrogate. -/
def ustep_lo2 (n : Nat) : Option Nat → List Char → StrStep
  | some m, s3 =>
    if 0xdc00 ≤ m ∧ m < 0xe000 then
      StrStep.chr (Char.ofNat (0x10000 + (n - 0xd800) * 0x400 + (m - 0xdc00))) s3
    else StrStep.bad
  | none, _ => StrStep.bad

/-- After a `\uXXXX` escape decoding to the high surrogate `n`, scan the
mandatory `\uXXXX` low surrogate escape that follows. -/
def ustep_lo (n : Nat) : List Char → StrStep
  | e2 :: u2 :: a2 :: b2 :: c3 :: d2 :: s3 =>
    if e2 = '\\' ∧ u2 = 'u' then ustep_lo2 n (hex4 a2 b2 c3 d2) s3 else StrStep.bad
  | _ => StrStep.bad

/-- Interpret the decoded value of a `\uXXXX` escape: a high surrogate
must be followed by a low surrogate escape; a lone low surrogate is
rejected (a Lean `Char` holds only Unicode scalar values); anything else
is the decoded code point. -/
def ustep : Option Nat → List Char → StrStep
  | some n, s2 =>
    if 0xd800 ≤ n ∧ n < 0xdc00 then ustep_lo n s2
    else if 0xdc00 ≤ n ∧ n < 0xe000 then StrStep.bad
    else StrStep.chr (Char.ofNat n) s2
  | none, _ => StrStep.bad

/-- Scan one escape sequence, the leading backslash already consumed. -/
def string_step_esc (e : Char) (s1 : List Char) : StrStep :=
  if e = '"' then StrStep.chr '"' s1
  else if e = '\\' then StrStep.chr '\\' s1
  else if e = '/' then StrStep.chr '/' s1
  else if e = 'b' then StrStep.chr '\x08' s1
  else if e = 'f' then StrStep.chr '\x0c' s1
  else if e = 'n' then StrStep.chr '\n' s1
  else if e = 'r' then StrStep.chr '\r' s1
  else if e = 't' then StrStep.chr '\t' s1
  else if e = 'u' then
    match s1 with
    | a :: b :: c2 :: d :: s2 => ustep (hex4 a b c2 d) s2
    | _ => StrStep.bad
  else StrStep.bad

/-- Scan the character after a backslash. -/
def string_step_bs : List Char → StrStep
  | [] => StrStep.bad
  | e :: s1 => string_step_esc e s1

/-- Scan one item of a JSON string literal body: the closing quote, an
escape sequence, or one unescaped character (unescaped control characters
rejected, as in strict-mode `json.loads`). -/
def string_step : List Char → StrStep
  | [] => StrStep.bad
  | c :: s =>
    if c = '"' then StrStep.done s
    else if c = '\\' then string_step_bs s
    else if c.toNat < 0x20 then StrStep.bad
    else StrStep.chr c s

/-- Decode the body of a JSON string literal (the opening quote already
consumed), returning the decoded text and the input after the closing
quote.  Every step consumes at least one input character, so the fuel
passed by `parse_jstring` — the input length plus one — never runs out
before the scan ends on its own. -/
def parse_string_body : Nat → List Char → Option (PyStr × List Char)
  | 0, _ => none
  | fuel + 1, s =>
    match string_step s with
    | StrStep.done rest => some ([], rest)
    | StrStep.chr c rest => cons_result c (parse_string_body fuel rest)
    | StrStep.bad => none

/-- Decode a JSON string literal, opening quote included. -/
def parse_jstring : List Char → Option (PyStr × List Char)
  | c :: s => if c = '"' then parse_string_body (s.length + 1) s else none
  | [] => none

/-- Skip JSON whitespace: space, tab, newline, carriage return. -/
def skip_ws : List Char → List Char
  | c :: s => if c = ' ' ∨ c = '\t' ∨ c = '\n' ∨ c = '\r' then skip_ws s else c :: s
  | [] => []

/-- Decode the members of an object with string keys and string values,
the opening brace and any following whitespace already consumed and at
least one member present; consumes the closing brace.  `fuel` bounds the
member count; callers pass the input length, which suffices since every
member occupies at least one character. -/
def parse_members : Nat → List Char → Option (List (PyStr × PyStr) × List Char)
  | 0, _ => none
  | fuel + 1, s =>
    match parse_jstring s with
    | none => none
    | some (k, s1) =>
      match skip_ws s1 with
      | [] => none
      | c2 :: s2 =>
        if c2 = ':' then
          match parse_jstring (skip_ws s2) with
          | none => none
          | some (v, s3) =>
            match skip_ws s3 with
            | [] => none
            | c4 :: s4 =>
              if c4 = '\x7d' then some ([(k, v)], s4)
              else if c4 = ',' then
                match parse_members fuel (skip_ws s4) with
                | some (kvs, s5) => some ((k, v) :: kvs, s5)
                | none => none
              else none
        else none

/-- Embedding of `json.loads` on a document that is one object with string
keys and string values: whitespace, the object, whitespace, end of input. -/
def json_loads_strobj (s : PyStr) : Option (List (PyStr × PyStr)) :=
  match skip_ws s with
  | [] => none
  | c :: rest =>
    if c = '\x7b' then
      match skip_ws rest with
      | [] => none
      | c1 :: rest1 =>
        if c1 = '\x7d' then (if skip_ws rest1 = [] then some [] else none)
        else
          match parse_members (c1 :: rest1).length (c1 :: rest1) with
          | some (kvs, rest2) => if skip_ws rest2 = [] then some kvs else none
          | none => none
    else none

/-! ### Round-trip lemmas: decoding what the encoder produced -/

/-- Hex digits written by the encoder are read back to their value. -/
theorem parse_toHexDigit_fin : ∀ d : Fin 16, parse_hex_digit (toHexDigit d.val) = some d.val := by
  decide

/-- Hex digits written by the encoder are read back to their value. -/
theorem parse_hex_digit_toHexDigit {d : Nat} (h : d < 16) :
    parse_hex_digit (toHexDigit d) = some d :=
  parse_toHexDigit_fin ⟨d, h⟩

/-- The four hex digits of `n < 0x10000` are read back to `n`. -/
theorem hex4_toHex4 {n : Nat} (h : n < 0x10000) :
    hex4 (toHexDigit (n / 4096 % 16)) (toHexDigit (n / 256 % 16))
      (toHexDigit (n / 16 % 16)) (toHexDigit (n % 16)) = some n := by
  rw [hex4, parse_hex_digit_toHexDigit (Nat.mod_lt _ (by omega)),
    parse_hex_digit_toHexDigit (Nat.mod_lt _ (by omega)),
    parse_hex_digit_toHexDigit (Nat.mod_lt _ (by omega)),
    parse_hex_digit_toHexDigit (Nat.mod_lt _ (by omega)), hex4comb]
  exact congrArg some (by omega)

/-- The code point of a `Char` is never a surrogate and is below
`0x110000`. -/
theorem char_toNat_valid (c : Char) :
    c.toNat < 0xd800 ∨ (0xdfff < c.toNat ∧ c.toNat < 0x110000) := c.valid

/-- Scanning a `\u` escape dispatches to `ustep`. -/
theorem string_step_u (a b c d : Char) (s2 : List Char) :
    string_step ('\\' :: 'u' :: a :: b :: c :: d :: s2) = ustep (hex4 a b c d) s2 := rfl

/-- A single `\uXXXX` escape outside the surrogate range decodes to its
code point. -/
theorem ustep_single {n : Nat} (hsur : ¬(0xd800 ≤ n ∧ n < 0xe000)) (s2 : List Char) :
    ustep (some n) s2 = StrStep.chr (Char.ofNat n) s2 := by
  rw [ustep, if_neg (by omega : ¬(0xd800 ≤ n ∧ n < 0xdc00)),
    if_neg (by omega : ¬(0xdc00 ≤ n ∧ n < 0xe000))]

/-- A surrogate-pair escape decodes to the combined code point. -/
theorem ustep_pair {n m : Nat} (hn1 : 0xd800 ≤ n) (hn2 : n < 0xdc00)
    (hm1 : 0xdc00 ≤ m) (hm2 : m < 0xe000) (s3 : List Char) :
    ustep (some n)
      ('\\' :: 'u' :: toHexDigit (m / 4096 % 16) :: toHexDigit (m / 256 % 16) ::
        toHexDigit (m / 16 % 16) :: toHexDigit (m % 16) :: s3) =
      StrStep.chr (Char.ofNat (0x10000 + (n - 0xd800) * 0x400 + (m - 0xdc00))) s3 := by
  rw [ustep, if_pos ⟨hn1, hn2⟩, ustep_lo,
    if_pos (⟨rfl, rfl⟩ : (('\\' : Char) = '\\') ∧ (('u' : Char) = 'u')),
    hex4_toHex4 (by omega), ustep_lo2, if_pos ⟨hm1, hm2⟩]

/-- Scanning the encoder output for `c` yields exactly `c` and leaves the
rest of the input untouched. -/
theorem string_step_escape (c : Char) (tl : List Char) :
    string_step (escape_ascii_char c ++ tl) = StrStep.chr c tl := by
  by_cases h1 : c = '\\'
  · subst h1; rfl
  by_cases h2 : c = '"'
  · subst h2; rfl
  by_cases h3 : c = '\x08'
  · subst h3; rfl
  by_cases h4 : c = '\x0c'
  · subst h4; rfl
  by_cases h5 : c = '\n'
  · subst h5; rfl
  by_cases h6 : c = '\r'
  · subst h6; rfl
  by_cases h7 : c = '\t'
  · subst h7; rfl
  by_cases h8 : 0x20 ≤ c.toNat ∧ c.toNat ≤ 0x7e
  · rw [escape_ascii_char, if_neg h1, if_neg h2, if_neg h3, if_neg h4, if_neg h5,
      if_neg h6, if_neg h7, if_pos h8, List.singleton_append, string_step,
      if_neg h2, if_neg h1, if_neg (by omega : ¬ c.toNat < 0x20)]
  by_cases h9 : c.toNat < 0x10000
  · rw [escape_ascii_char, if_neg h1, if_neg h2, if_neg h3, if_neg h4, if_neg h5,
      if_neg h6, if_neg h7, if_neg h8, if_pos h9, toHex4]
    rw [List.cons_append, List.cons_append, List.cons_append, List.cons_append,
      List.cons_append, List.cons_append, List.nil_append]
    rw [string_step_u, hex4_toHex4 h9,
      ustep_single (by rcases char_toNat_valid c with h | ⟨h, h2⟩ <;> omega) tl,
      Char.ofNat_toNat]
  · rw [escape_ascii_char, if_neg h1, if_neg h2, if_neg h3, if_neg h4, if_neg h5,
      if_neg h6, if_neg h7, if_neg h8, if_neg h9, toHex4, toHex4]
    have hhi : c.toNat < 0x110000 := by
      rcases char_toNat_valid c with h | ⟨h, h2⟩ <;> omega
    simp only [List.cons_append, List.nil_append, List.append_assoc]
    rw [string_step_u, hex4_toHex4 (by omega),
      ustep_pair (n := 0xd800 + (c.toNat - 0x10000) / 0x400)
        (m := 0xdc00 + (c.toNat - 0x10000) % 0x400)
        (by omega) (by omega) (by omega) (by omega)]
    rw [show 0x10000 + (0xd800 + (c.toNat - 0x10000) / 0x400 - 0xd800) * 0x400 +
        (0xdc00 + (c.toNat - 0x10000) % 0x400 - 0xdc00) = c.toNat by omega,
      Char.ofNat_toNat]

/-- The escape of a character is nonempty. -/
theorem escape_ascii_char_length_pos (c : Char) : 0 < (escape_ascii_char c).length := by
  rw [escape_ascii_char]
  split_ifs <;> simp

/-- The escaped text is at least as long as the text. -/
theorem length_le_flatMap_escape (s : PyStr) :
    s.length ≤ (s.flatMap escape_ascii_char).length := by
  induction s with
  | nil => simp
  | cons c s ih =>
    rw [List.flatMap_cons, List.length_append, List.length_cons]
    have := escape_ascii_char_length_pos c
    omega

/-- Decoding the escaped text followed by a closing quote recovers the
text, given enough fuel. -/
theorem parse_string_body_encode (s : PyStr) : ∀ (fuel : Nat), s.length < fuel → ∀ tl,
    parse_string_body fuel (s.flatMap escape_ascii_char ++ '"' :: tl) = some (s, tl) := by
  induction s with
  | nil =>
    intro fuel hf tl
    obtain ⟨f, rfl⟩ : ∃ f, fuel = f + 1 := ⟨fuel - 1, by omega⟩
    rw [List.flatMap_nil, List.nil_append, parse_string_body,
      show string_step ('"' :: tl) = StrStep.done tl from rfl]
  | cons c s ih =>
    intro fuel hf tl
    obtain ⟨f, rfl⟩ : ∃ f, fuel = f + 1 := ⟨fuel - 1, by omega⟩
    rw [List.flatMap_cons, List.append_assoc, parse_string_body, string_step_escape]
    show cons_result c (parse_string_body f (s.flatMap escape_ascii_char ++ '"' :: tl)) =
      some (c :: s, tl)
    rw [ih f (by simp at hf; omega) tl]
    rfl

/-- Decoding a serialized string literal recovers the string. -/
theorem parse_jstring_encode (s : PyStr) (tl : List Char) :
    parse_jstring (py_encode_basestring_ascii s ++ tl) = some (s, tl) := by
  simp only [py_encode_basestring_ascii, List.cons_append, List.append_assoc,
    List.singleton_append]
  rw [parse_jstring, if_pos rfl]
  refine parse_string_body_encode s _ ?_ tl
  have h1 := length_le_flatMap_escape s
  rw [List.length_append, List.length_cons]
  omega

/-- The scan of whitespace does not move past a non-whitespace character. -/
theorem skip_ws_cons_of {c : Char} (h : ¬(c = ' ' ∨ c = '\t' ∨ c = '\n' ∨ c = '\r'))
    (l : List Char) : skip_ws (c :: l) = c :: l := by
  rw [skip_ws, if_neg h]

/-- The scan of whitespace consumes a space. -/
theorem skip_ws_space (l : List Char) : skip_ws (' ' :: l) = skip_ws l := by
  rw [skip_ws, if_pos (Or.inl rfl)]

/-- The scan of whitespace stops at a double quote. -/
theorem skip_ws_quote (l : List Char) : skip_ws ('"' :: l) = '"' :: l :=
  skip_ws_cons_of (by decide) l

/-- The scan of whitespace stops at a colon. -/
theorem skip_ws_colon (l : List Char) : skip_ws (':' :: l) = ':' :: l :=
  skip_ws_cons_of (by decide) l

/-- The scan of whitespace stops at a comma. -/
theorem skip_ws_comma (l : List Char) : skip_ws (',' :: l) = ',' :: l :=
  skip_ws_cons_of (by decide) l

/-- The scan of whitespace stops at an opening brace. -/
theorem skip_ws_lbrace (l : List Char) : skip_ws ('\x7b' :: l) = '\x7b' :: l :=
  skip_ws_cons_of (by decide) l

/-- The scan of whitespace stops at a closing brace. -/
theorem skip_ws_rbrace (l : List Char) : skip_ws ('\x7d' :: l) = '\x7d' :: l :=
  skip_ws_cons_of (by decide) l

/-- The scan of whitespace stops at the start of a serialized string literal. -/
theorem skip_ws_encode (s : PyStr) (r : List Char) :
    skip_ws (py_encode_basestring_ascii s ++ r) = py_encode_basestring_ascii s ++ r := by
  simp only [py_encode_basestring_ascii, List.cons_append, skip_ws_quote]

/-- Appending after a serialized member reassociates to start with the
serialized key. -/
theorem encode_member_append (k v : PyStr) (r : List Char) :
    encode_member k v ++ r =
      py_encode_basestring_ascii k ++ (':' :: ' ' :: (py_encode_basestring_ascii v ++ r)) := by
  rw [encode_member, List.append_assoc, List.cons_append, List.cons_append]

/-- The scan of whitespace stops at the start of serialized members. -/
theorem skip_ws_members (k v : PyStr) (kvs : List (PyStr × PyStr)) (r : List Char) :
    skip_ws (json_dumps_members ((k, v) :: kvs) ++ r) =
      json_dumps_members ((k, v) :: kvs) ++ r := by
  cases kvs with
  | nil =>
    simp only [json_dumps_members, encode_member, py_encode_basestring_ascii,
      List.cons_append, List.append_assoc, List.singleton_append, skip_ws_quote]
  | cons hd tl =>
    obtain ⟨k2, v2⟩ := hd
    simp only [json_dumps_members, encode_member, py_encode_basestring_ascii,
      List.cons_append, List.append_assoc, List.singleton_append, skip_ws_quote]

/-- Serialized members are at least as many characters as members. -/
theorem json_dumps_members_length (kvs : List (PyStr × PyStr)) : ∀ k v : PyStr,
    kvs.length + 1 ≤ (json_dumps_members ((k, v) :: kvs)).length := by
  induction kvs with
  | nil =>
    intro k v
    simp [json_dumps_members, encode_member, py_encode_basestring_ascii]
  | cons hd tl ih =>
    intro k v
    obtain ⟨k2, v2⟩ := hd
    have h2 := ih k2 v2
    simp only [json_dumps_members, List.length_append, List.length_cons] at h2 ⊢
    omega

/-- Decoding serialized members followed by the closing brace recovers the
member list, given enough fuel. -/
theorem parse_members_encode (kvs : List (PyStr × PyStr)) :
    ∀ (k v : PyStr) (fuel : Nat) (tl : List Char), kvs.length < fuel →
    parse_members fuel (json_dumps_members ((k, v) :: kvs) ++ '\x7d' :: tl) =
      some ((k, v) :: kvs, tl) := by
  induction kvs with
  | nil =>
    intro k v fuel tl hf
    obtain ⟨f, rfl⟩ : ∃ f, fuel = f + 1 := ⟨fuel - 1, by omega⟩
    rw [json_dumps_members, encode_member_append, parse_members]
    simp only [parse_jstring_encode, skip_ws_colon, reduceIte, skip_ws_space, skip_ws_encode,
      skip_ws_rbrace]
  | cons hd kvs ih =>
    intro k v fuel tl hf
    obtain ⟨k2, v2⟩ := hd
    obtain ⟨f, rfl⟩ : ∃ f, fuel = f + 1 := ⟨fuel - 1, by omega⟩
    have hrec := ih k2 v2 f tl (by simp only [List.length_cons] at hf; omega)
    rw [json_dumps_members, List.append_assoc, List.cons_append, List.cons_append,
      encode_member_append, parse_members]
    · simp only [parse_jstring_encode, skip_ws_colon, reduceIte, skip_ws_space,
        skip_ws_encode, skip_ws_comma, skip_ws_members, hrec]
      rw [if_neg (show ¬(',' : Char) = '\x7d' by decide)]
    · exact fun h => List.cons_ne_nil _ _ h

/-- Decoding a serialized nonempty string-valued object recovers the
member list: `json.loads` inverts `json.dumps` on this fragment. -/
theorem json_loads_strobj_dumps (k v : PyStr) (kvs : List (PyStr × PyStr)) :
    json_loads_strobj (json_dumps_strobj ((k, v) :: kvs)) = some ((k, v) :: kvs) := by
  have hshape : ∃ Y, json_dumps_members ((k, v) :: kvs) = '"' :: Y := by
    cases kvs with
    | nil =>
      simp only [json_dumps_members, encode_member, py_encode_basestring_ascii,
        List.cons_append]
      exact ⟨_, rfl⟩
    | cons hd tl =>
      obtain ⟨k2, v2⟩ := hd
      simp only [json_dumps_members, encode_member, py_encode_basestring_ascii,
        List.cons_append, List.append_assoc]
      exact ⟨_, rfl⟩
  obtain ⟨Y, hY⟩ := hshape
  have hlen : kvs.length < (json_dumps_members ((k, v) :: kvs) ++ ['\x7d']).length := by
    have h1 := json_dumps_members_length kvs k v
    rw [List.length_append]
    omega
  have hparse := parse_members_encode kvs k v
    (json_dumps_members ((k, v) :: kvs) ++ ['\x7d']).length [] hlen
  rw [json_dumps_strobj, json_loads_strobj]
  simp only [List.cons_append, skip_ws_lbrace, reduceIte, skip_ws_members]
  rw [hY, List.cons_append]
  simp only [reduceIte]
  rw [if_neg (show ¬('"' : Char) = '\x7d' by decide), ← List.cons_append, ← hY, hparse]
  simp only [skip_ws, reduceIte]


/-! ### The claims -/

/-- Environment binding used by test scenario A: `ENVIRONMENT="test"`. -/
def scenarioA_env : EnvMap := [(ENVIRONMENT_KEY, "test".data)]

/-- Context used by the test module: `function_name = "test-function"`. -/
def scenarioA_ctx : Context := ⟨some ("test-function".data)⟩

/-- An `ENVIRONMENT` value with quotes, a backslash, a newline and
braces. -/
def hostile_env : EnvMap := [(ENVIRONMENT_KEY, "t\"e\\s\nt\x7b\x7d ".data)]

/-- A `function_name` with quotes, a backslash, a newline, braces, a tab,
an astral-plane character, a non-ASCII character and a control
character. -/
def hostile_fn : PyStr :=
  "fn\"\\\n\x7b\x7d\t".data ++ [Char.ofNat 128512, Char.ofNat 233, Char.ofNat 1]

/-- C1: for every string `v` bound to `ENVIRONMENT`, `hello_world` returns
exactly `"Hello World from "` ++ `v` ++ `" environment!"`. -/
theorem hello_world_interpolates (env : EnvMap) (v : PyStr)
    (h : env_lookup env ENVIRONMENT_KEY = some v) :
    hello_world env = "Hello World from ".data ++ v ++ " environment!".data := by
  simp only [hello_world, os_environ_get, h, Option.getD_some]

/-- C1 witness: a binding whose value holds braces and a quote. -/
theorem hello_world_interpolates_witness :
    env_lookup [(ENVIRONMENT_KEY, "pr\x7bo\x7dd\"".data)] ENVIRONMENT_KEY =
      some ("pr\x7bo\x7dd\"".data) ∧
    hello_world [(ENVIRONMENT_KEY, "pr\x7bo\x7dd\"".data)] =
      "Hello World from ".data ++ "pr\x7bo\x7dd\"".data ++ " environment!".data :=
  ⟨rfl, hello_world_interpolates _ _ rfl⟩

/-- C2: when `ENVIRONMENT` is absent, `hello_world` returns
`"Hello World from unknown environment!"`. -/
theorem hello_world_default_unknown (env : EnvMap)
    (h : env_lookup env ENVIRONMENT_KEY = none) :
    hello_world env = "Hello World from unknown environment!".data := by
  simp only [hello_world, os_environ_get, h, Option.getD_none]
  rfl

/-- C2 witness: the empty environment mapping. -/
theorem hello_world_default_unknown_witness :
    env_lookup [] ENVIRONMENT_KEY = none ∧
    hello_world [] = "Hello World from unknown environment!".data :=
  ⟨rfl, hello_world_default_unknown [] rfl⟩

/-- C3: whenever the context exposes `function_name`, the response body is
the JSON serialization of the object with exactly the two fields
`message` (the greeting) and `function_name`. -/
theorem lambda_handler_body_serializes {α : Type} (env : EnvMap) (e : α)
    (ctx : Context) (fn : PyStr) (h : ctx.function_name = some fn)
    (r : Response) (hr : (lambda_handler env e ctx).2 = Except.ok r) :
    r.body = json_dumps_strobj [(messageKey, hello_world env), (functionNameKey, fn)] := by
  simp only [lambda_handler, h] at hr
  cases hr
  rfl

/-- C3 witness: the scenario A context and environment. -/
theorem lambda_handler_body_serializes_witness :
    scenarioA_ctx.function_name = some ("test-function".data) ∧
    (Response.mk 200 (json_dumps_strobj
        [(messageKey, hello_world scenarioA_env),
         (functionNameKey, "test-function".data)])).body =
      json_dumps_strobj
        [(messageKey, hello_world scenarioA_env),
         (functionNameKey, "test-function".data)] :=
  ⟨rfl, lambda_handler_body_serializes scenarioA_env () scenarioA_ctx
    ("test-function".data) rfl _ rfl⟩

/-- C4: whenever the context exposes `function_name`, the response has
`statusCode = 200`. -/
theorem lambda_handler_statusCode_200 {α : Type} (env : EnvMap) (e : α)
    (ctx : Context) (fn : PyStr) (h : ctx.function_name = some fn)
    (r : Response) (hr : (lambda_handler env e ctx).2 = Except.ok r) :
    r.statusCode = 200 := by
  simp only [lambda_handler, h] at hr
  cases hr
  rfl

/-- C4 witness: the scenario A context and environment. -/
theorem lambda_handler_statusCode_200_witness :
    scenarioA_ctx.function_name = some ("test-function".data) ∧
    (Response.mk 200 (json_dumps_strobj
        [(messageKey, hello_world scenarioA_env),
         (functionNameKey, "test-function".data)])).statusCode = 200 :=
  ⟨rfl, lambda_handler_statusCode_200 scenarioA_env () scenarioA_ctx
    ("test-function".data) rfl _ rfl⟩

/-- C5: a context without `function_name` makes `lambda_handler` raise
`AttributeError` and produce no response; a context with it raises
nothing. -/
theorem lambda_handler_error_handling {α : Type} (env : EnvMap) (e : α)
    (ctx : Context) :
    (ctx.function_name = none →
      (lambda_handler env e ctx).2 = Except.error PyError.attributeError) ∧
    (∀ fn, ctx.function_name = some fn →
      (lambda_handler env e ctx).2.isOk = true) := by
  constructor
  · intro h
    simp only [lambda_handler, h]
  · intro fn h
    simp only [lambda_handler, h, Except.isOk, Except.toBool]

/-- C5 witness: a context missing the attribute errors; one exposing it
succeeds. -/
theorem lambda_handler_error_handling_witness :
    (lambda_handler [] () (Context.mk none)).2 = Except.error PyError.attributeError ∧
    (lambda_handler [] () (Context.mk (some ("g".data)))).2.isOk = true :=
  ⟨(lambda_handler_error_handling [] () (Context.mk none)).1 rfl,
   (lambda_handler_error_handling [] () (Context.mk (some ("g".data)))).2 ("g".data) rfl⟩

/-- C6: `lambda_handler` ignores the event entirely: any two events give
identical results, printed message included. -/
theorem lambda_handler_ignores_event {α β : Type} (env : EnvMap) (e1 : α)
    (e2 : β) (ctx : Context) :
    lambda_handler env e1 ctx = lambda_handler env e2 ctx := rfl

/-- C7: `hello_world` never fails: it returns a greeting-shaped string for
every environment mapping, and absence of the key is covered by the
`"unknown"` default rather than by an error. -/
theorem hello_world_never_fails (env : EnvMap) :
    (∃ mid : PyStr,
      hello_world env = "Hello World from ".data ++ mid ++ " environment!".data) ∧
    (env_lookup env ENVIRONMENT_KEY = none →
      hello_world env =
        "Hello World from ".data ++ "unknown".data ++ " environment!".data) := by
  constructor
  · exact ⟨os_environ_get env ENVIRONMENT_KEY ("unknown".data), rfl⟩
  · intro h
    simp only [hello_world, os_environ_get, h, Option.getD_none]

/-- C7 witness: the empty environment mapping. -/
theorem hello_world_never_fails_witness :
    env_lookup [] ENVIRONMENT_KEY = none ∧
    hello_world [] =
      "Hello World from ".data ++ "unknown".data ++ " environment!".data :=
  ⟨rfl, (hello_world_never_fails []).2 rfl⟩

/-- C8: neither function changes the environment mapping: in the
state-passing embedding the post-state equals the pre-state. -/
theorem environment_mapping_unchanged {α : Type} (env : EnvMap) (e : α)
    (ctx : Context) :
    (hello_world_st env).2 = env ∧ (lambda_handler_st env e ctx).2 = env :=
  ⟨rfl, rfl⟩

/-- C9: scenario A: with `ENVIRONMENT="test"` and
`function_name="test-function"`, the handler returns status 200 and a body
that parses back to exactly the expected two-field object. -/
theorem lambda_handler_scenarioA :
    (lambda_handler scenarioA_env () scenarioA_ctx).2 =
      Except.ok (Response.mk 200 (json_dumps_strobj
        [(messageKey, "Hello World from test environment!".data),
         (functionNameKey, "test-function".data)])) ∧
    json_loads_strobj (json_dumps_strobj
        [(messageKey, "Hello World from test environment!".data),
         (functionNameKey, "test-function".data)]) =
      some [(messageKey, "Hello World from test environment!".data),
            (functionNameKey, "test-function".data)] :=
  ⟨rfl, json_loads_strobj_dumps _ _ _⟩

/-- C10: for every environment value and every `function_name` — quotes,
backslashes, braces, newlines and all — the body is valid JSON and parses
back to exactly the original two-field object. -/
theorem lambda_handler_body_json_roundtrip {α : Type} (env : EnvMap) (e : α)
    (ctx : Context) (fn : PyStr) (h : ctx.function_name = some fn)
    (r : Response) (hr : (lambda_handler env e ctx).2 = Except.ok r) :
    json_loads_strobj r.body =
      some [(messageKey, hello_world env), (functionNameKey, fn)] := by
  simp only [lambda_handler, h] at hr
  cases hr
  exact json_loads_strobj_dumps _ _ _

/-- C10 witness: an environment value and function name full of
characters that need escaping, the astral plane included. -/
theorem lambda_handler_body_json_roundtrip_witness :
    (Context.mk (some hostile_fn)).function_name = some hostile_fn ∧
    json_loads_strobj (Response.mk 200 (json_dumps_strobj
        [(messageKey, hello_world hostile_env), (functionNameKey, hostile_fn)])).body =
      some [(messageKey, hello_world hostile_env), (functionNameKey, hostile_fn)] :=
  ⟨rfl, lambda_handler_body_json_roundtrip hostile_env () (Context.mk (some hostile_fn))
    hostile_fn rfl _ rfl⟩

end SampleComponent
